import Mathlib

/-!
Shallow embedding of the options-chain pricing core of `sheshoptions`
(source file `src/sheshoptions.py`, a React component whose computational
core consists of the functions `normalCDF`, `calculateBlackScholes`,
`calculateGreeks` and `generateOptions`).

Numbers are modelled as exact rationals (grid arithmetic, which the source
performs on plain numerals) and reals (pricing arithmetic, which uses
`Math.exp`, `Math.log`, `Math.sqrt`).  The ambient clock that the source
reads via `new Date()` inside `generateOptions` is made an explicit
parameter `now`, measured in milliseconds since the Unix epoch, exactly the
unit in which JavaScript date subtraction yields its result.
-/

namespace SheshOptions

/-- Option type: the source uses the strings `'call'` and `'put'`. -/
inductive OptType where
  | call
  | put
deriving DecidableEq, Repr

/-- The polynomial tail probability computed inside `normalCDF`
(source lines 22-24): with `t = 1 / (1 + 0.2316419*|x|)` and
`d = 0.3989423 * exp(-x*x/2)`, the value
`d * t * (0.3193815 + t*(-0.3565638 + t*(1.781478 + t*(-1.821256 + t*1.330274))))`. -/
noncomputable def probTail (x : ℝ) : ℝ :=
  let t : ℝ := 1 / (1 + 0.2316419 * |x|)
  let d : ℝ := 0.3989423 * Real.exp (-x * x / 2)
  d * t * (0.3193815 + t * (-0.3565638 + t * (1.781478 + t * (-1.821256 + t * 1.330274))))

/-- `normalCDF` (source lines 21-26): Abramowitz-Stegun style approximation,
`x > 0 ? 1 - prob : prob`. -/
noncomputable def normalCDF (x : ℝ) : ℝ :=
  if x > 0 then 1 - probTail x else probTail x

/-- `d1` of the Black-Scholes formula as computed on source line 31:
`(log(S/K) + (r + 0.5*sigma*sigma)*T) / (sigma*sqrt(T))`. -/
noncomputable def d1 (S K T r sigma : ℝ) : ℝ :=
  (Real.log (S / K) + (r + 0.5 * sigma * sigma) * T) / (sigma * Real.sqrt T)

/-- `d2 = d1 - sigma*sqrt(T)` as computed on source line 32. -/
noncomputable def d2 (S K T r sigma : ℝ) : ℝ :=
  d1 S K T r sigma - sigma * Real.sqrt T

/-- `calculateBlackScholes` (source lines 28-39).  For `T <= 0` the intrinsic
value is returned immediately; otherwise the closed-form price. -/
noncomputable def calculateBlackScholes (S K T r sigma : ℝ) (type : OptType) : ℝ :=
  if T ≤ 0 then
    if type = OptType.call then max (S - K) 0 else max (K - S) 0
  else if type = OptType.call then
    S * normalCDF (d1 S K T r sigma) - K * Real.exp (-r * T) * normalCDF (d2 S K T r sigma)
  else
    K * Real.exp (-r * T) * normalCDF (-d2 S K T r sigma) - S * normalCDF (-d1 S K T r sigma)

/-- The record returned by `calculateGreeks` (source lines 42, 56): this
variant computes `delta`, `gamma`, `theta`, `vega` (no rho). -/
structure Greeks where
  delta : ℝ
  gamma : ℝ
  theta : ℝ
  vega : ℝ

/-- `calculateGreeks` (source lines 41-57).  For `T <= 0` all sensitivities
are zero; otherwise the analytic sensitivities, with theta per calendar day
(/365) and vega per percentage point (/100), as in the source. -/
noncomputable def calculateGreeks (S K T r sigma : ℝ) (type : OptType) : Greeks :=
  if T ≤ 0 then ⟨0, 0, 0, 0⟩ else
    let d1v := d1 S K T r sigma
    let d2v := d2 S K T r sigma
    let nd1 := normalCDF d1v
    let npd1 := Real.exp (-d1v * d1v / 2) / Real.sqrt (2 * Real.pi)
    { delta := if type = OptType.call then nd1 else nd1 - 1
      gamma := npd1 / (S * sigma * Real.sqrt T)
      theta :=
        if type = OptType.call then
          (-S * npd1 * sigma / (2 * Real.sqrt T)
            - r * K * Real.exp (-r * T) * normalCDF d2v) / 365
        else
          (-S * npd1 * sigma / (2 * Real.sqrt T)
            + r * K * Real.exp (-r * T) * normalCDF (-d2v)) / 365
      vega := S * npd1 * Real.sqrt T / 100 }

/-- JavaScript `Math.round`: round half toward positive infinity,
`round x = ⌊x + 0.5⌋`. -/
def jsRound (q : ℚ) : ℤ := ⌊q + 1 / 2⌋

/-- The seven-strike grid of `generateOptions` (source lines 82-90):
`round` of the spot times `0.85, 0.90, 0.95, 1, 1.05, 1.10, 1.15`. -/
def strikes (stockPrice : ℚ) : List ℤ :=
  [jsRound (stockPrice * 0.85),
   jsRound (stockPrice * 0.90),
   jsRound (stockPrice * 0.95),
   jsRound stockPrice,
   jsRound (stockPrice * 1.05),
   jsRound (stockPrice * 1.10),
   jsRound (stockPrice * 1.15)]

/-- One fixed expiry entry of the chain (source lines 92-96). -/
structure Expiration where
  date : String
  label : String
deriving DecidableEq, Repr

/-- The three fixed expiries of `generateOptions` (source lines 92-96). -/
def expirations : List Expiration :=
  [⟨"2025-12-30", "30 Dec 25"⟩,
   ⟨"2026-01-30", "30 Jan 26"⟩,
   ⟨"2026-03-27", "27 Mar 26"⟩]

/-- Milliseconds since the Unix epoch of `new Date(d)` for the three grid
dates (midnight UTC, which is how JavaScript parses `YYYY-MM-DD`). -/
def dateMs (d : String) : ℚ :=
  if d = "2025-12-30" then 1767052800000
  else if d = "2026-01-30" then 1769731200000
  else if d = "2026-03-27" then 1774569600000
  else 0

/-- The divisor `1000 * 60 * 60 * 24 * 365` of source line 103: milliseconds
per (365-day) year. -/
def msPerYear : ℚ := 1000 * 60 * 60 * 24 * 365

/-- The year-fraction `T` of source line 103:
`(new Date(exp.date) - new Date()) / (1000*60*60*24*365)`, with the ambient
clock made explicit as `now` (milliseconds since the epoch). -/
def timeToExpiry (ex : Expiration) (now : ℚ) : ℚ :=
  (dateMs ex.date - now) / msPerYear

/-- JavaScript `String.prototype.replace` with a plain-string pattern
replaces only the first occurrence; the source (line 114) uses it with the
empty replacement, i.e. it deletes the first occurrence of the pattern. -/
def replaceFirstAux (pat : List Char) : List Char → List Char
  | [] => []
  | c :: cs =>
    if pat.isPrefixOf (c :: cs) then (c :: cs).drop pat.length
    else c :: replaceFirstAux pat cs

/-- `s.replace(pat, '')` of JavaScript: delete the first occurrence of
`pat` in `s` (used with `pat = ".NS"` on source line 114). -/
def replaceFirst (s pat : String) : String :=
  ⟨replaceFirstAux pat.data s.data⟩

/-- One generated option row (source lines 116-129). -/
structure OptionContract where
  code : String
  underlying : String
  strike : ℤ
  type : OptType
  expiry : String
  expiryDate : String
  spotPrice : ℚ
  theoreticalPrice : ℝ
  intrinsicValue : ℚ
  timeValue : ℝ
  delta : ℝ
  gamma : ℝ
  theta : ℝ
  vega : ℝ
  itm : Bool

/-- The risk-free rate constant of source line 99. -/
def fixedRate : ℚ := 0.065

/-- The implied-volatility constant of source line 100. -/
def fixedSigma : ℚ := 0.30

/-- The body of the innermost loop of `generateOptions`
(source lines 107-129): build one `OptionContract` for a given expiry,
strike and type. -/
noncomputable def mkOption (stockSymbol : String) (stockPrice : ℚ) (now : ℚ)
    (ex : Expiration) (strike : ℤ) (type : OptType) : OptionContract :=
  let T : ℚ := timeToExpiry ex now
  let theoreticalPrice : ℝ :=
    calculateBlackScholes (stockPrice : ℝ) (strike : ℝ) (T : ℝ)
      (fixedRate : ℝ) (fixedSigma : ℝ) type
  let intrinsicValue : ℚ :=
    if type = OptType.call then max (stockPrice - strike) 0
    else max ((strike : ℚ) - stockPrice) 0
  let greeks : Greeks :=
    calculateGreeks (stockPrice : ℝ) (strike : ℝ) (T : ℝ)
      (fixedRate : ℝ) (fixedSigma : ℝ) type
  { code := replaceFirst stockSymbol ".NS" ++ " " ++ ex.label ++ " "
      ++ toString strike ++ " " ++ (if type = OptType.call then "CE" else "PE")
    underlying := stockSymbol
    strike := strike
    type := type
    expiry := ex.label
    expiryDate := ex.date
    spotPrice := stockPrice
    theoreticalPrice := theoreticalPrice
    intrinsicValue := intrinsicValue
    timeValue := theoreticalPrice - (intrinsicValue : ℝ)
    delta := greeks.delta
    gamma := greeks.gamma
    theta := greeks.theta
    vega := greeks.vega
    itm := if type = OptType.call then decide ((strike : ℚ) < stockPrice)
      else decide (stockPrice < (strike : ℚ)) }

/-- `generateOptions` (source lines 81-135): for every expiry (outermost),
strike, and type (call before put) push one contract, in that order. -/
noncomputable def generateOptions (stockSymbol : String) (stockPrice : ℚ)
    (now : ℚ) : List OptionContract :=
  expirations.flatMap fun ex =>
    (strikes stockPrice).flatMap fun k =>
      [OptType.call, OptType.put].map fun ty =>
        mkOption stockSymbol stockPrice now ex k ty

/-! ### Helper lemmas -/

theorem probTail_eq (x : ℝ) :
    probTail x = 0.3989423 * Real.exp (-x * x / 2) * (1 / (1 + 0.2316419 * |x|)) *
      (0.3193815 + (1 / (1 + 0.2316419 * |x|)) * (-0.3565638 + (1 / (1 + 0.2316419 * |x|)) *
        (1.781478 + (1 / (1 + 0.2316419 * |x|)) * (-1.821256 + (1 / (1 + 0.2316419 * |x|)) * 1.330274)))) :=
  rfl

theorem polyAS_pos (t : ℝ) :
    0 < 0.3193815 + t * (-0.3565638 + t * (1.781478 + t * (-1.821256 + t * 1.330274))) := by
  nlinarith [sq_nonneg (t * t - 0.6845 * t), sq_nonneg (t - 0.15394), sq_nonneg t, sq_nonneg (t * t)]

theorem polyAS_mul_le (t : ℝ) (h0 : 0 ≤ t) (h1 : t ≤ 1) :
    t * (0.3193815 + t * (-0.3565638 + t * (1.781478 + t * (-1.821256 + t * 1.330274)))) ≤ 1.7442957 := by
  nlinarith [mul_nonneg (mul_nonneg (mul_nonneg h0 h0) (mul_nonneg h0 h0)) (sub_nonneg.mpr h1),
             mul_nonneg (mul_nonneg h0 h0) (sub_nonneg.mpr h1),
             mul_nonneg h0 (sub_nonneg.mpr h1),
             sq_nonneg (t - 1), sq_nonneg t,
             mul_nonneg (mul_nonneg (mul_nonneg h0 h0) (mul_nonneg h0 h0)) h0]

theorem probTail_pos (x : ℝ) : 0 < probTail x := by
  rw [probTail_eq]
  have ht : (0:ℝ) < 1 / (1 + 0.2316419 * |x|) := by positivity
  have hd : (0:ℝ) < 0.3989423 * Real.exp (-x * x / 2) := by positivity
  exact mul_pos (mul_pos hd ht) (polyAS_pos _)

theorem probTail_lt_one (x : ℝ) : probTail x < 1 := by
  rw [probTail_eq]
  set t : ℝ := 1 / (1 + 0.2316419 * |x|) with ht_def
  have hden : (1:ℝ) ≤ 1 + 0.2316419 * |x| := by nlinarith [abs_nonneg x]
  have ht0 : 0 < t := by rw [ht_def]; positivity
  have ht1 : t ≤ 1 := by
    rw [ht_def]
    exact div_le_one_of_le₀ hden (by positivity)
  have hE0 : 0 < Real.exp (-x * x / 2) := Real.exp_pos _
  have hE1 : Real.exp (-x * x / 2) ≤ 1 :=
    Real.exp_le_one_iff.mpr (by nlinarith [sq_nonneg x])
  have hP := polyAS_pos t
  have hTP := polyAS_mul_le t ht0.le ht1
  nlinarith [mul_nonneg (sub_nonneg.mpr hE1) (mul_nonneg ht0.le hP.le),
             mul_pos hE0 (mul_pos ht0 hP)]

theorem probTail_neg (x : ℝ) : probTail (-x) = probTail x := by
  rw [probTail_eq, probTail_eq, abs_neg]
  ring_nf

theorem normalCDF_nonneg (x : ℝ) : 0 ≤ normalCDF x := by
  unfold normalCDF
  split
  · linarith [probTail_lt_one x]
  · exact (probTail_pos x).le

theorem normalCDF_le_one (x : ℝ) : normalCDF x ≤ 1 := by
  unfold normalCDF
  split
  · linarith [probTail_pos x]
  · exact (probTail_lt_one x).le

theorem normalCDF_add_neg (x : ℝ) (hx : x ≠ 0) : normalCDF x + normalCDF (-x) = 1 := by
  unfold normalCDF
  rcases hx.lt_or_lt with h | h
  · rw [if_neg (by linarith), if_pos (by linarith), probTail_neg]
    ring
  · rw [if_pos h, if_neg (by linarith), probTail_neg]
    ring

theorem mkOption_strike (sym : String) (S now : ℚ) (ex : Expiration) (k : ℤ) (ty : OptType) :
    (mkOption sym S now ex k ty).strike = k := rfl

theorem mkOption_expiry (sym : String) (S now : ℚ) (ex : Expiration) (k : ℤ) (ty : OptType) :
    (mkOption sym S now ex k ty).expiry = ex.label := rfl

theorem mkOption_type (sym : String) (S now : ℚ) (ex : Expiration) (k : ℤ) (ty : OptType) :
    (mkOption sym S now ex k ty).type = ty := rfl

theorem mem_generateOptions {sym : String} {S now : ℚ} {ex : Expiration} {k : ℤ}
    (ty : OptType) (hex : ex ∈ expirations) (hk : k ∈ strikes S) :
    mkOption sym S now ex k ty ∈ generateOptions sym S now := by
  unfold generateOptions
  exact List.mem_flatMap.mpr ⟨ex, hex, List.mem_flatMap.mpr
    ⟨k, hk, List.mem_map.mpr ⟨ty, by cases ty <;> simp, rfl⟩⟩⟩

theorem generateOptions_mem {c : OptionContract} {sym : String} {S now : ℚ}
    (hc : c ∈ generateOptions sym S now) :
    ∃ ex ∈ expirations, ∃ k ∈ strikes S, ∃ ty, c = mkOption sym S now ex k ty := by
  unfold generateOptions at hc
  simp only [List.mem_flatMap, List.mem_map] at hc
  obtain ⟨ex, hex, k, hk, ty, -, rfl⟩ := hc
  exact ⟨ex, hex, k, hk, ty, rfl⟩

/-! ### Claims -/

/-- C5: for `S, K, sigma > 0` and `T ≤ 0`, the price is exactly the
intrinsic value (`max (S-K) 0` for CALL, `max (K-S) 0` for PUT), bypassing
the formula, and the Greeks are all zero; neither raises an error. -/
theorem c5_degenerate_expiry (S K T r sigma : ℝ) (ty : OptType)
    (hS : 0 < S) (hK : 0 < K) (hsig : 0 < sigma) (hT : T ≤ 0) :
    calculateBlackScholes S K T r sigma OptType.call = max (S - K) 0 ∧
    calculateBlackScholes S K T r sigma OptType.put = max (K - S) 0 ∧
    calculateGreeks S K T r sigma ty = ⟨0, 0, 0, 0⟩ := by
  refine ⟨?_, ?_, ?_⟩ <;> simp [calculateBlackScholes, calculateGreeks, hT]

/-- Witness for C5 at `S = 2, K = 1, T = 0, r = 0, sigma = 1`. -/
theorem c5_degenerate_expiry_witness :
    calculateBlackScholes 2 1 0 0 1 OptType.call = max (2 - 1) 0 ∧
    calculateBlackScholes 2 1 0 0 1 OptType.put = max (1 - 2) 0 ∧
    calculateGreeks 2 1 0 0 1 OptType.call = ⟨0, 0, 0, 0⟩ :=
  c5_degenerate_expiry 2 1 0 0 1 OptType.call (by norm_num) (by norm_num)
    (by norm_num) (by norm_num)

/-- C10: for `S, K, sigma > 0` and `T > 0`, gamma and vega are strictly
positive and are identical for CALL and PUT. -/
theorem c10_gamma_vega_pos_symmetric (S K T r sigma : ℝ)
    (hS : 0 < S) (hK : 0 < K) (hsig : 0 < sigma) (hT : 0 < T) :
    0 < (calculateGreeks S K T r sigma OptType.call).gamma ∧
    0 < (calculateGreeks S K T r sigma OptType.call).vega ∧
    (calculateGreeks S K T r sigma OptType.call).gamma
      = (calculateGreeks S K T r sigma OptType.put).gamma ∧
    (calculateGreeks S K T r sigma OptType.call).vega
      = (calculateGreeks S K T r sigma OptType.put).vega := by
  have hT' : ¬ T ≤ 0 := not_le.mpr hT
  have hsqT : 0 < Real.sqrt T := Real.sqrt_pos.mpr hT
  have hsq2pi : 0 < Real.sqrt (2 * Real.pi) := Real.sqrt_pos.mpr (by positivity)
  have hE : 0 < Real.exp (-d1 S K T r sigma * d1 S K T r sigma / 2) := Real.exp_pos _
  refine ⟨?_, ?_, ?_, ?_⟩
  · simp only [calculateGreeks, if_neg hT']
    exact div_pos (div_pos hE hsq2pi) (mul_pos (mul_pos hS hsig) hsqT)
  · simp only [calculateGreeks, if_neg hT']
    exact div_pos (mul_pos (mul_pos hS (div_pos hE hsq2pi)) hsqT) (by norm_num)
  · simp only [calculateGreeks, if_neg hT']
  · simp only [calculateGreeks, if_neg hT']

/-- Witness for C10 at `S = K = sigma = T = 1, r = 0`. -/
theorem c10_gamma_vega_pos_symmetric_witness :
    0 < (calculateGreeks 1 1 1 0 1 OptType.call).gamma ∧
    0 < (calculateGreeks 1 1 1 0 1 OptType.call).vega ∧
    (calculateGreeks 1 1 1 0 1 OptType.call).gamma
      = (calculateGreeks 1 1 1 0 1 OptType.put).gamma ∧
    (calculateGreeks 1 1 1 0 1 OptType.call).vega
      = (calculateGreeks 1 1 1 0 1 OptType.put).vega :=
  c10_gamma_vega_pos_symmetric 1 1 1 0 1 (by norm_num) (by norm_num)
    (by norm_num) (by norm_num)

/-- C8: every generated contract satisfies
`timeValue = theoreticalPrice - intrinsicValue` and `intrinsicValue ≥ 0`. -/
theorem c8_time_value_invariant (sym : String) (S now : ℚ) (c : OptionContract)
    (hc : c ∈ generateOptions sym S now) :
    c.timeValue = c.theoreticalPrice - (c.intrinsicValue : ℝ) ∧
    0 ≤ c.intrinsicValue := by
  obtain ⟨ex, -, k, -, ty, rfl⟩ := generateOptions_mem hc
  refine ⟨rfl, ?_⟩
  cases ty <;> simp [mkOption]

/-- Witness for C8: the first grid contract at spot 100, clock 0. -/
theorem c8_time_value_invariant_witness :
    let c := mkOption "RELIANCE.NS" 100 0 ⟨"2025-12-30", "30 Dec 25"⟩
      (jsRound (100 * 0.85)) OptType.call
    c.timeValue = c.theoreticalPrice - (c.intrinsicValue : ℝ) ∧ 0 ≤ c.intrinsicValue :=
  c8_time_value_invariant "RELIANCE.NS" 100 0 _
    (mem_generateOptions OptType.call (by simp [expirations]) (by simp [strikes]))

/-- C9: every generated contract's `itm` flag is `spot > strike` for calls
and `spot < strike` for puts. -/
theorem c9_moneyness_consistency (sym : String) (S now : ℚ) (c : OptionContract)
    (hc : c ∈ generateOptions sym S now) :
    (c.type = OptType.call → (c.itm = true ↔ (c.strike : ℚ) < c.spotPrice)) ∧
    (c.type = OptType.put → (c.itm = true ↔ c.spotPrice < (c.strike : ℚ))) := by
  obtain ⟨ex, -, k, -, ty, rfl⟩ := generateOptions_mem hc
  cases ty <;> simp [mkOption]

/-- Witness for C9: a put contract of the chain at spot 50, clock 0. -/
theorem c9_moneyness_consistency_witness :
    let c := mkOption "TCS.NS" 50 0 ⟨"2026-01-30", "30 Jan 26"⟩ (jsRound 50) OptType.put
    (c.type = OptType.call → (c.itm = true ↔ (c.strike : ℚ) < c.spotPrice)) ∧
    (c.type = OptType.put → (c.itm = true ↔ c.spotPrice < (c.strike : ℚ))) :=
  c9_moneyness_consistency "TCS.NS" 50 0 _
    (mem_generateOptions OptType.put (by simp [expirations]) (by simp [strikes]))

/-- The exact value of `normalCDF 0`: at `x = 0` the positive branch is not
taken, so the polynomial tail itself is returned, and it evaluates exactly
to `0.3989423 * 1.2533137`. -/
theorem normalCDF_zero : normalCDF 0 = 0.49999985009951 := by
  rw [normalCDF, if_neg (by norm_num), probTail_eq]
  norm_num

/-- C2 counterexample: at `x = 0` the code returns the tail value on both
sides, so `cdf 0 + cdf (-0) = 0.99999970019902 ≠ 1`, and `cdf 0` misses
`0.5` by about `1.499e-7`, far outside the claimed `1e-9` tolerance. -/
theorem c2_cdf_antisymmetry_counterexample :
    normalCDF 0 + normalCDF (-0) ≠ 1 ∧ ¬ |normalCDF 0 - 0.5| ≤ 1e-9 := by
  have h := normalCDF_zero
  constructor
  · rw [neg_zero, h]
    norm_num
  · rw [h, abs_of_neg (by norm_num)]
    norm_num

/-- C2 amended: the approximation is antisymmetric away from zero
(`cdf x + cdf (-x) = 1` for every `x ≠ 0`), while `cdf 0` equals exactly
`0.49999985009951`, which is within `1.5e-7` of `0.5` but not `1e-9`. -/
theorem c2_cdf_antisymmetry_amended :
    (∀ x : ℝ, x ≠ 0 → normalCDF x + normalCDF (-x) = 1) ∧
    normalCDF 0 = 0.49999985009951 ∧ |normalCDF 0 - 0.5| ≤ 1.5e-7 := by
  refine ⟨fun x hx => normalCDF_add_neg x hx, normalCDF_zero, ?_⟩
  rw [normalCDF_zero, abs_of_neg (by norm_num)]
  norm_num

/-- Witness for C2 (amended), instantiating the antisymmetry at `x = 1`. -/
theorem c2_cdf_antisymmetry_amended_witness :
    normalCDF 1 + normalCDF (-1) = 1 :=
  c2_cdf_antisymmetry_amended.1 1 (by norm_num)

/-- C7: for `S, K, sigma > 0` and `T ≥ 0`, CALL delta lies in `[0, 1]` and
PUT delta lies in `[-1, 0]`. -/
theorem c7_delta_range (S K T r sigma : ℝ)
    (hS : 0 < S) (hK : 0 < K) (hsig : 0 < sigma) (hT : 0 ≤ T) :
    0 ≤ (calculateGreeks S K T r sigma OptType.call).delta ∧
    (calculateGreeks S K T r sigma OptType.call).delta ≤ 1 ∧
    -1 ≤ (calculateGreeks S K T r sigma OptType.put).delta ∧
    (calculateGreeks S K T r sigma OptType.put).delta ≤ 0 := by
  rcases le_or_lt T 0 with h | h
  · simp [calculateGreeks, h]
  · have h' : ¬ T ≤ 0 := not_le.mpr h
    have h1 := normalCDF_nonneg (d1 S K T r sigma)
    have h2 := normalCDF_le_one (d1 S K T r sigma)
    have hc : (calculateGreeks S K T r sigma OptType.call).delta
        = normalCDF (d1 S K T r sigma) := by
      simp [calculateGreeks, if_neg h']
    have hp : (calculateGreeks S K T r sigma OptType.put).delta
        = normalCDF (d1 S K T r sigma) - 1 := by
      simp [calculateGreeks, if_neg h']
    exact ⟨by rw [hc]; linarith, by rw [hc]; linarith,
           by rw [hp]; linarith, by rw [hp]; linarith⟩

/-- Witness for C7 at `S = 2850.50, K = 2850, T = 16/365, r = 0.065,
sigma = 0.30`. -/
theorem c7_delta_range_witness :
    0 ≤ (calculateGreeks 2850.50 2850 (16/365) 0.065 0.30 OptType.call).delta ∧
    (calculateGreeks 2850.50 2850 (16/365) 0.065 0.30 OptType.call).delta ≤ 1 ∧
    -1 ≤ (calculateGreeks 2850.50 2850 (16/365) 0.065 0.30 OptType.put).delta ∧
    (calculateGreeks 2850.50 2850 (16/365) 0.065 0.30 OptType.put).delta ≤ 0 :=
  c7_delta_range 2850.50 2850 (16/365) 0.065 0.30 (by norm_num) (by norm_num)
    (by norm_num) (by norm_num)

/-- C6 amended: put-call parity holds exactly (not merely within a
tolerance) whenever neither `d1` nor `d2` is exactly `0`, i.e. away from
the branch points of the CDF approximation. -/
theorem c6_put_call_parity_amended (S K T r sigma : ℝ)
    (hS : 0 < S) (hK : 0 < K) (hsig : 0 < sigma) (hT : 0 < T)
    (hd1 : d1 S K T r sigma ≠ 0) (hd2 : d2 S K T r sigma ≠ 0) :
    calculateBlackScholes S K T r sigma OptType.call
      - calculateBlackScholes S K T r sigma OptType.put
      = S - K * Real.exp (-r * T) := by
  have h' : ¬ T ≤ 0 := not_le.mpr hT
  have h1 := normalCDF_add_neg _ hd1
  have h2 := normalCDF_add_neg _ hd2
  simp only [calculateBlackScholes, if_neg h']
  simp only [reduceCtorEq, if_true, if_false, reduceIte]
  linear_combination S * h1 - K * Real.exp (-r * T) * h2

/-- Witness for C6 (amended) at `S = K = T = sigma = 1, r = 0`, where
`d1 = 1/2` and `d2 = -1/2`. -/
theorem c6_put_call_parity_amended_witness :
    calculateBlackScholes 1 1 1 0 1 OptType.call
      - calculateBlackScholes 1 1 1 0 1 OptType.put
      = 1 - 1 * Real.exp (-0 * 1) :=
  c6_put_call_parity_amended 1 1 1 0 1 (by norm_num) (by norm_num) (by norm_num)
    (by norm_num)
    (by unfold d1; norm_num [Real.log_one, Real.sqrt_one])
    (by unfold d2 d1; norm_num [Real.log_one, Real.sqrt_one])

/-- C6 counterexample: at `S = 1, K = exp(1/100), T = 1/50, r = 0,
sigma = 1` (valid inputs, chosen so that `d1 = 0`), the parity defect is
exactly `1 - 2*cdf(0) ≈ 3e-7`, which exceeds `1e-6` relative tolerance
measured against either `S - K*exp(-r*T)` or `call - put`. -/
theorem c6_put_call_parity_counterexample :
    ¬ |(calculateBlackScholes 1 (Real.exp (1/100)) (1/50) 0 1 OptType.call
        - calculateBlackScholes 1 (Real.exp (1/100)) (1/50) 0 1 OptType.put)
        - (1 - Real.exp (1/100) * Real.exp (-0 * (1/50)))|
      ≤ 1e-6 * |1 - Real.exp (1/100) * Real.exp (-0 * (1/50))| ∧
    ¬ |(calculateBlackScholes 1 (Real.exp (1/100)) (1/50) 0 1 OptType.call
        - calculateBlackScholes 1 (Real.exp (1/100)) (1/50) 0 1 OptType.put)
        - (1 - Real.exp (1/100) * Real.exp (-0 * (1/50)))|
      ≤ 1e-6 * |calculateBlackScholes 1 (Real.exp (1/100)) (1/50) 0 1 OptType.call
        - calculateBlackScholes 1 (Real.exp (1/100)) (1/50) 0 1 OptType.put| := by
  have hE : Real.exp (-(0:ℝ) * (1/50)) = 1 := by
    rw [show (-(0:ℝ) * (1/50)) = 0 by ring, Real.exp_zero]
  have hd1 : d1 1 (Real.exp (1/100)) (1/50) 0 1 = 0 := by
    unfold d1
    rw [one_div, Real.log_inv, Real.log_exp]
    norm_num
  have hd2 : d2 1 (Real.exp (1/100)) (1/50) 0 1 = -Real.sqrt (1/50) := by
    unfold d2
    rw [hd1]
    ring
  have hsq : 0 < Real.sqrt (1/50) := Real.sqrt_pos.mpr (by norm_num)
  have hsum := normalCDF_add_neg (Real.sqrt (1/50)) hsq.ne'
  have hKlow : (1:ℝ) + 1/100 < Real.exp (1/100) := by
    have := Real.add_one_lt_exp (x := (1/100 : ℝ)) (by norm_num)
    linarith
  have hKhigh : Real.exp (1/100) < 100/99 := by
    have ha : (99/100:ℝ) < Real.exp (-(1/100)) := by
      have := Real.add_one_lt_exp (x := (-(1/100) : ℝ)) (by norm_num)
      linarith
    have hmul : Real.exp (1/100) * Real.exp (-(1/100)) = 1 := by
      rw [← Real.exp_add]
      norm_num
    nlinarith [Real.exp_pos ((1:ℝ)/100)]
  have hL : calculateBlackScholes 1 (Real.exp (1/100)) (1/50) 0 1 OptType.call
      - calculateBlackScholes 1 (Real.exp (1/100)) (1/50) 0 1 OptType.put
      = 2 * (0.49999985009951 : ℝ) - Real.exp (1/100) := by
    have h' : ¬ (1/50 : ℝ) ≤ 0 := by norm_num
    simp only [calculateBlackScholes, if_neg h']
    simp only [reduceCtorEq, if_true, if_false, reduceIte]
    rw [hd1, hd2, neg_neg, neg_zero]
    rw [show Real.exp ((0:ℝ) * (1/50)) = 1 by rw [zero_mul, Real.exp_zero],
      normalCDF_zero]
    linear_combination (-(Real.exp ((1:ℝ)/100))) * hsum
  rw [hL, hE]
  constructor
  · rw [abs_of_neg (by nlinarith), abs_of_neg (by nlinarith)]
    push_neg
    nlinarith
  · rw [abs_of_neg (by nlinarith), abs_of_neg (by nlinarith)]
    push_neg
    nlinarith

/-- C4 amended: the display code strips only the first occurrence of the
NSE suffix `.NS` from the symbol (BSE/London suffixes are not stripped),
then joins symbol, expiry label, integer strike and `CE`/`PE` with
spaces. -/
theorem c4_display_code_amended (sym : String) (S now : ℚ) (c : OptionContract)
    (hc : c ∈ generateOptions sym S now) :
    c.code = replaceFirst c.underlying ".NS" ++ " " ++ c.expiry ++ " "
      ++ toString c.strike ++ " "
      ++ (if c.type = OptType.call then "CE" else "PE") := by
  obtain ⟨ex, -, k, -, ty, rfl⟩ := generateOptions_mem hc
  rfl

/-- Witness for C4 (amended): the NSE symbol `INFY.NS` is stripped in the
code of a generated contract. -/
theorem c4_display_code_amended_witness :
    let c := mkOption "INFY.NS" 40 0 ⟨"2026-03-27", "27 Mar 26"⟩
      (jsRound (40 * 1.15)) OptType.call
    c.code = replaceFirst c.underlying ".NS" ++ " " ++ c.expiry ++ " "
      ++ toString c.strike ++ " "
      ++ (if c.type = OptType.call then "CE" else "PE") :=
  c4_display_code_amended "INFY.NS" 40 0 _
    (mem_generateOptions OptType.call (by simp [expirations]) (by simp [strikes]))

/-- C4 counterexample: the BSE suffix `.BO` is not stripped: the first
contract generated for `RELIANCE.BO` at spot 100 has display code
`"RELIANCE.BO 30 Dec 25 85 CE"`, not `"RELIANCE 30 Dec 25 85 CE"`. -/
theorem c4_display_code_counterexample :
    ((generateOptions "RELIANCE.BO" 100 0).map OptionContract.code).head?
      = some "RELIANCE.BO 30 Dec 25 85 CE" ∧
    "RELIANCE.BO 30 Dec 25 85 CE" ≠ "RELIANCE 30 Dec 25 85 CE" := by
  have hk : jsRound (100 * 0.85) = 85 := by norm_num [jsRound]
  constructor
  · have hhead : ((generateOptions "RELIANCE.BO" 100 0).map OptionContract.code).head?
        = some ((mkOption "RELIANCE.BO" 100 0 ⟨"2025-12-30", "30 Dec 25"⟩
          (jsRound (100 * 0.85)) OptType.call).code) := by
      simp [generateOptions, expirations, strikes]
    rw [hhead, hk]
    rfl
  · decide

theorem generateOptions_length (sym : String) (S now : ℚ) :
    (generateOptions sym S now).length = 42 := by
  simp [generateOptions, expirations, strikes]

theorem generateOptions_triples (sym : String) (S now : ℚ) :
    ((generateOptions sym S now).map fun c => (c.strike, c.expiry, c.type))
      = expirations.flatMap fun ex => (strikes S).flatMap fun k =>
          [(k, ex.label, OptType.call), (k, ex.label, OptType.put)] := by
  simp [generateOptions, expirations, strikes, mkOption_strike, mkOption_expiry,
    mkOption_type]

theorem generateOptions_strike_map (sym : String) (S now : ℚ) :
    ((generateOptions sym S now).map OptionContract.strike)
      = expirations.flatMap fun _ => (strikes S).flatMap fun k => [k, k] := by
  simp [generateOptions, expirations, strikes, mkOption_strike]

theorem pairGrid_mem {x : ℤ × String × OptType} {ks : List ℤ} {lab : String}
    (hx : x ∈ ks.flatMap fun k => [(k, lab, OptType.call), (k, lab, OptType.put)]) :
    x.1 ∈ ks ∧ x.2.1 = lab := by
  simp only [List.mem_flatMap, List.mem_cons, List.not_mem_nil, or_false] at hx
  obtain ⟨k, hk, h | h⟩ := hx <;> subst h <;> exact ⟨hk, rfl⟩

theorem pairGrid_nodup (lab : String) (ks : List ℤ) (hk : ks.Nodup) :
    (ks.flatMap fun k => [(k, lab, OptType.call), (k, lab, OptType.put)]).Nodup := by
  induction ks with
  | nil => simp
  | cons k ks ih =>
    rcases List.nodup_cons.mp hk with ⟨hk1, hk2⟩
    rw [List.flatMap_cons]
    simp only [List.cons_append, List.nil_append]
    refine List.nodup_cons.mpr ⟨?_, List.nodup_cons.mpr ⟨?_, ih hk2⟩⟩
    · intro hmem
      rcases List.mem_cons.mp hmem with h | h
      · exact absurd h (by simp)
      · exact hk1 (pairGrid_mem h).1
    · intro hmem
      exact hk1 (pairGrid_mem hmem).1

theorem tripleGrid_nodup (S : ℚ) (hk : (strikes S).Nodup) :
    (expirations.flatMap fun ex => (strikes S).flatMap fun k =>
      [(k, ex.label, OptType.call), (k, ex.label, OptType.put)]).Nodup := by
  simp only [expirations, List.flatMap_cons, List.flatMap_nil, List.append_nil]
  refine List.Nodup.append (pairGrid_nodup _ _ hk)
    (List.Nodup.append (pairGrid_nodup _ _ hk) (pairGrid_nodup _ _ hk) ?_) ?_
  · intro a h1 h2
    have e1 := (pairGrid_mem h1).2
    have e2 := (pairGrid_mem h2).2
    rw [e1] at e2
    exact absurd e2 (by decide)
  · intro a h1 h2
    have e1 := (pairGrid_mem h1).2
    rcases List.mem_append.mp h2 with h | h
    · have e2 := (pairGrid_mem h).2
      rw [e1] at e2
      exact absurd e2 (by decide)
    · have e2 := (pairGrid_mem h).2
      rw [e1] at e2
      exact absurd e2 (by decide)

/-- C1 amended: the fixed-grid generator always produces exactly
`7 * 3 * 2 = 42` contracts — non-positive rounded strikes are kept, not
dropped — and the `(strike, expiry label, type)` triples are unique
provided the seven rounded strikes are pairwise distinct. -/
theorem c1_chain_shape (sym : String) (S now : ℚ) :
    (generateOptions sym S now).length = 42 ∧
    ((strikes S).Nodup →
      ((generateOptions sym S now).map fun c => (c.strike, c.expiry, c.type)).Nodup) := by
  refine ⟨generateOptions_length sym S now, fun hk => ?_⟩
  rw [generateOptions_triples]
  exact tripleGrid_nodup S hk

/-- Witness for C1 (amended) at spot 100, where the seven strikes
`85, 90, 95, 100, 105, 110, 115` are pairwise distinct. -/
theorem c1_chain_shape_witness :
    (strikes 100).Nodup ∧
    (generateOptions "HDFCBANK.NS" 100 0).length = 42 ∧
    ((generateOptions "HDFCBANK.NS" 100 0).map fun c => (c.strike, c.expiry, c.type)).Nodup := by
  have hs : strikes 100 = [85, 90, 95, 100, 105, 110, 115] := by
    norm_num [strikes, jsRound]
  have hnd : (strikes 100).Nodup := by rw [hs]; decide
  exact ⟨hnd, (c1_chain_shape "HDFCBANK.NS" 100 0).1,
    (c1_chain_shape "HDFCBANK.NS" 100 0).2 hnd⟩

/-- C1 counterexample: at the positive spot `1/2` the rounded strikes are
`[0, 0, 0, 1, 1, 1, 1]`; the generator still produces all 42 contracts —
the non-positive strike 0 is NOT dropped (the claim demands 36 here) — and
the `(strike, expiry, type)` triples are not unique. -/
theorem c1_chain_shape_counterexample :
    (generateOptions "SUZLON.NS" (1/2) 0).length = 42 ∧
    (0:ℤ) ∈ (generateOptions "SUZLON.NS" (1/2) 0).map OptionContract.strike ∧
    ¬ ((generateOptions "SUZLON.NS" (1/2) 0).map fun c => (c.strike, c.expiry, c.type)).Nodup := by
  have hs : strikes (1/2) = [0, 0, 0, 1, 1, 1, 1] := by
    norm_num [strikes, jsRound]
  refine ⟨generateOptions_length _ _ _, ?_, ?_⟩
  · rw [generateOptions_strike_map, hs]
    simp [expirations]
  · rw [generateOptions_triples, hs]
    simp only [expirations, List.flatMap_cons, List.flatMap_nil, List.append_nil]
    decide

theorem mkOption_vega (sym : String) (S now : ℚ) (ex : Expiration) (k : ℤ)
    (ty : OptType) :
    (mkOption sym S now ex k ty).vega
      = (calculateGreeks (S : ℝ) (k : ℝ) ((timeToExpiry ex now : ℚ) : ℝ)
          (fixedRate : ℝ) (fixedSigma : ℝ) ty).vega := rfl

theorem mkOption_vega_pos (sym : String) (S : ℚ) (hS : 0 < S) (now : ℚ)
    (ex : Expiration) (k : ℤ) (hT : 0 < timeToExpiry ex now) :
    0 < (mkOption sym S now ex k OptType.call).vega := by
  have hTR : (0:ℝ) < ((timeToExpiry ex now : ℚ) : ℝ) := by exact_mod_cast hT
  have h' : ¬ ((timeToExpiry ex now : ℚ) : ℝ) ≤ 0 := not_le.mpr hTR
  rw [mkOption_vega]
  simp only [calculateGreeks, if_neg h']
  have hSR : (0:ℝ) < (S : ℚ) := by exact_mod_cast hS
  exact div_pos (mul_pos (mul_pos hSR
    (div_pos (Real.exp_pos _) (Real.sqrt_pos.mpr (by positivity))))
    (Real.sqrt_pos.mpr hTR)) (by norm_num)

theorem mkOption_vega_zero (sym : String) (S now : ℚ) (ex : Expiration) (k : ℤ)
    (ty : OptType) (hT : timeToExpiry ex now ≤ 0) :
    (mkOption sym S now ex k ty).vega = 0 := by
  have hTR : ((timeToExpiry ex now : ℚ) : ℝ) ≤ 0 := by exact_mod_cast hT
  rw [mkOption_vega]
  simp only [calculateGreeks, if_pos hTR]

theorem generateOptions_head (sym : String) (S now : ℚ) :
    (generateOptions sym S now).head?
      = some (mkOption sym S now ⟨"2025-12-30", "30 Dec 25"⟩
          (jsRound (S * 0.85)) OptType.call) := by
  simp [generateOptions, expirations, strikes]

/-- The chain generator reads the ambient clock: at clock time 0 the first
expiry is in the future (positive vega on the first contract), while at
clock time `1774569600000` (2026-03-27) every expiry has `T ≤ 0` (vega 0),
so the two outputs differ even though `(symbol, spot)` are identical. -/
theorem generateOptions_clock_ne (sym : String) (S : ℚ) (hS : 0 < S) :
    generateOptions sym S 0 ≠ generateOptions sym S 1774569600000 := by
  intro h
  have h0 := congrArg List.head? h
  rw [generateOptions_head, generateOptions_head] at h0
  have hv := congrArg OptionContract.vega (Option.some.inj h0)
  have hpos : 0 < (mkOption sym S 0 ⟨"2025-12-30", "30 Dec 25"⟩
      (jsRound (S * 0.85)) OptType.call).vega :=
    mkOption_vega_pos sym S hS 0 _ _
      (by norm_num [timeToExpiry, dateMs, msPerYear])
  have hzero : (mkOption sym S 1774569600000 ⟨"2025-12-30", "30 Dec 25"⟩
      (jsRound (S * 0.85)) OptType.call).vega = 0 :=
    mkOption_vega_zero sym S 1774569600000 _ _ _
      (by norm_num [timeToExpiry, dateMs, msPerYear])
  rw [hzero] at hv
  exact absurd hv (ne_of_gt hpos)

/-- C3 amended: the three valuation components are pure functions of their
arguments, but the chain generator is not independent of ambient state: it
reads the system clock, and for every symbol and positive spot price its
output at clock time 0 differs from its output at clock time
2026-03-27 (epoch ms 1774569600000). -/
theorem c3_purity_amended (sym : String) (S : ℚ) (hS : 0 < S) :
    generateOptions sym S 0 ≠ generateOptions sym S 1774569600000 :=
  generateOptions_clock_ne sym S hS

/-- Witness for C3 (amended) at symbol `TCS.NS`, spot 50. -/
theorem c3_purity_amended_witness :
    generateOptions "TCS.NS" 50 0 ≠ generateOptions "TCS.NS" 50 1774569600000 :=
  c3_purity_amended "TCS.NS" 50 (by norm_num)

/-- C3 counterexample: two invocations of the chain generator with the
identical arguments `("RELIANCE.NS", 100)` but different ambient clock
states produce different outputs, refuting that all four components are
independent of ambient state. -/
theorem c3_purity_counterexample :
    generateOptions "RELIANCE.NS" 100 0
      ≠ generateOptions "RELIANCE.NS" 100 1774569600000 :=
  generateOptions_clock_ne "RELIANCE.NS" 100 (by norm_num)

end SheshOptions
